import Mathlib

/-!
Shallow embedding of the MediSync EHR backend (Express + Mongoose routes in
`routes/patients.js`, `routes/appointments.js`, `routes/staff.js`,
`routes/doctors.js`, and the Mongoose schemas in `models/`).

The MongoDB collections are modelled as Lean lists of records; the Mongoose
single-document operations `findOne`, `findOneAndUpdate` (with `{new: true}`)
and `findOneAndDelete` are modelled as `List.find?`, `updateFirst` and
`removeFirst` on those lists.  Route handlers become pure functions from the
request context (resolved tenant id `req.hospitalId`, authenticated user
`req.user`, parsed body, query parameters) and the current store to an HTTP
response plus the updated store.
-/

namespace EHR

/-- Source: `findOneAndUpdate`-style store mutation: rewrite the first element
matching `p` with `f`; MongoDB updates a single matching document. -/
def updateFirst (p : α → Bool) (f : α → α) : List α → List α
  | [] => []
  | a :: as => if p a then f a :: as else a :: updateFirst p f as

/-- Source: `findOneAndDelete`-style store mutation: remove the first element
matching `p`. -/
def removeFirst (p : α → Bool) : List α → List α
  | [] => []
  | a :: as => if p a then as else a :: removeFirst p as

/-! ### JavaScript / MongoDB helpers -/

/-- Models `parseInt(x) || d`: an absent or unparsable (`NaN`) query value and
the parsed value `0` are falsy in JavaScript, so they fall back to the
default; every other parsed integer (negative ones included) is kept. -/
def jsParseOr (v : Option Int) (d : Int) : Int :=
  match v with
  | none => d
  | some n => if n = 0 then d else n

/-- Models `Math.ceil(total / limit)` for a natural `total` and a nonzero
integer `limit` (the handlers obtain `limit` from `jsParseOr _ 10`, which
never yields `0`). -/
def jsCeilDiv (total : Nat) (limit : Int) : Int :=
  if 0 < limit then ((total + limit.toNat - 1) / limit.toNat : Nat)
  else -((total / limit.natAbs : Nat))

/-- Insert into a sorted list: auxiliary step of `sortBy`. -/
def insertSorted (le : α → α → Bool) (a : α) : List α → List α
  | [] => [a]
  | b :: bs => if le a b then a :: b :: bs else b :: insertSorted le a bs

/-- Models the MongoDB `.sort(...)` stage as a structurally recursive
(insertion) sort by the comparison `le`. -/
def sortBy (le : α → α → Bool) : List α → List α
  | [] => []
  | a :: as => insertSorted le a (sortBy le as)

/-- Case-insensitive literal containment, modelling the handlers'
`new RegExp(search, 'i')` test for search terms without regex
metacharacters. -/
def containsCI (hay needle : String) : Bool :=
  ((hay.toLower).splitOn needle.toLower).length > 1 || hay.toLower == needle.toLower

/-! ### HTTP response envelope

Responses follow the envelope used by every handler:
`{ success, message?, data?, pagination? }` plus the HTTP status code. -/

structure Pagination where
  page : Int
  limit : Int
  total : Nat
  pages : Int
deriving DecidableEq

structure ApiResponse (α : Type) where
  status : Nat
  success : Bool
  message : Option String
  data : Option α
  pagination : Option Pagination
deriving DecidableEq

/-- Source: `res.status(404).json({success: false, message: msg})`. -/
def notFoundResponse (msg : String) : ApiResponse α :=
  { status := 404, success := false, message := some msg, data := none, pagination := none }

/-- Source: `res.status(500).json({success: false, message: 'Server error'})` —
the uniform `catch` branch of every handler. -/
def serverErrorResponse : ApiResponse α :=
  { status := 500, success := false, message := some "Server error", data := none, pagination := none }

/-- Source: `res.json({success: true, data})`. -/
def okData (d : α) : ApiResponse α :=
  { status := 200, success := true, message := none, data := some d, pagination := none }

/-- Source: `res.json({success: true, message, data})`. -/
def okMsgData (msg : String) (d : α) : ApiResponse α :=
  { status := 200, success := true, message := some msg, data := some d, pagination := none }

/-- Source: `res.status(201).json({success: true, message, data})`. -/
def createdResponse (msg : String) (d : α) : ApiResponse α :=
  { status := 201, success := true, message := some msg, data := some d, pagination := none }

/-! ### Domain entities

Record ids (`_id` ObjectIds) are modelled as `Nat`; dates as `Nat`
timestamps; Mongoose `String`/`Number` fields as `String`/`Int`.  Optional
schema paths become `Option` fields. -/

/-- Source: `models/Patient.js` is not part of the analysed sources; the fields are
taken from the `routes/patients.js` validators and queries (firstName,
lastName, email, phone, dateOfBirth, gender, status, lastVisit) plus the
tenant stamp `hospitalId` used by every query. -/
structure Patient where
  id : Nat
  hospitalId : String
  firstName : String
  lastName : String
  email : String
  phone : String
  dateOfBirth : String
  gender : String
  status : String
  lastVisit : Option Nat
  createdAt : Nat
deriving DecidableEq

/-- The JSON body of `POST /api/patients` / `PUT /api/patients/:id`:
each field may or may not be supplied, including an attacker-controlled
`hospitalId`. -/
structure PatientBody where
  hospitalId : Option String
  firstName : Option String
  lastName : Option String
  email : Option String
  phone : Option String
  dateOfBirth : Option String
  gender : Option String
  status : Option String
  lastVisit : Option Nat
deriving DecidableEq

/-- Source: `models/User.js` is not part of the analysed sources; fields are taken
from its uses in `routes/staff.js` (email, role, hospitalId) and
`routes/doctors.js` (name, role update). -/
structure User where
  id : Nat
  name : String
  email : String
  role : String
  hospitalId : String
deriving DecidableEq

/-- The `userData` part of the `POST /api/staff` body. -/
structure UserBody where
  name : Option String
  email : Option String
  role : Option String
  hospitalId : Option String
deriving DecidableEq

/-- Source: `models/Appointment.js` (appointmentSchema). -/
structure Appointment where
  id : Nat
  hospitalId : String
  patientId : Nat
  doctorId : Nat
  appointmentDate : Nat
  appointmentTime : String
  duration : Int
  department : Option String
  reason : String
  type : String
  status : String
  location : Option String
  notes : Option String
  createdBy : Nat
deriving DecidableEq

/-- The JSON body of `POST /api/appointments` / `PUT /api/appointments/:id`. -/
structure AppointmentBody where
  hospitalId : Option String
  patientId : Option Nat
  doctorId : Option Nat
  appointmentDate : Option Nat
  appointmentTime : Option String
  duration : Option Int
  department : Option String
  reason : Option String
  type : Option String
  status : Option String
  location : Option String
  notes : Option String
  createdBy : Option Nat
deriving DecidableEq

/-- Source: `enum: ['Scheduled', 'Confirmed', 'Completed', 'Cancelled', 'No-Show']`
from `models/Appointment.js`. -/
def appointmentStatusEnum : List String :=
  ["Scheduled", "Confirmed", "Completed", "Cancelled", "No-Show"]

/-- Source: `enum: ['In-Person', 'Virtual']` from `models/Appointment.js`. -/
def appointmentTypeEnum : List String := ["In-Person", "Virtual"]

/-- Nested `address` object of `models/Staff.js`. -/
structure Address where
  street : Option String
  city : Option String
  state : Option String
  zipCode : Option String
  country : Option String
deriving DecidableEq

/-- Nested `emergencyContact` object of `models/Staff.js`. -/
structure EmergencyContact where
  name : Option String
  relationship : Option String
  phone : Option String
deriving DecidableEq

/-- Nested `workSchedule.workingHours` object of `models/Staff.js`. -/
structure WorkingHours where
  start : Option String
  stop : Option String
deriving DecidableEq

/-- Nested `workSchedule` object of `models/Staff.js` (`end` is a Lean
keyword, rendered here as `stop`). -/
structure WorkSchedule where
  shift : String
  workingDays : List String
  workingHours : WorkingHours
deriving DecidableEq

/-- Source: `models/Staff.js` (staffSchema). -/
structure Staff where
  id : Nat
  userId : Nat
  employeeId : String
  firstName : String
  lastName : String
  department : String
  role : String
  phone : String
  email : String
  address : Address
  dateOfBirth : Option Nat
  gender : String
  emergencyContact : EmergencyContact
  joiningDate : Nat
  salary : Int
  workSchedule : WorkSchedule
  qualifications : List String
  certifications : List String
  status : String
  hospitalId : String
  notes : Option String
deriving DecidableEq

/-- The `staffData` part of the `POST /api/staff` body, and the body of
`PUT /api/staff/:id`. -/
structure StaffBody where
  userId : Option Nat
  employeeId : Option String
  firstName : Option String
  lastName : Option String
  department : Option String
  role : Option String
  phone : Option String
  email : Option String
  address : Option Address
  dateOfBirth : Option Nat
  gender : Option String
  emergencyContact : Option EmergencyContact
  joiningDate : Option Nat
  salary : Option Int
  workSchedule : Option WorkSchedule
  qualifications : Option (List String)
  certifications : Option (List String)
  status : Option String
  hospitalId : Option String
  notes : Option String
deriving DecidableEq

/-- Source: `enum: ['active', 'inactive', 'on-leave']` from `models/Staff.js`. -/
def staffStatusEnum : List String := ["active", "inactive", "on-leave"]

/-- The `department` enum from `models/Staff.js`. -/
def staffDepartmentEnum : List String :=
  ["Administration", "Nursing", "Laboratory", "Pharmacy", "Radiology",
   "Reception", "Billing", "IT Support", "Maintenance", "Security",
   "Human Resources", "Other"]

/-- Source: `enum: ['Male', 'Female', 'Other']` from `models/Staff.js`. -/
def genderEnum : List String := ["Male", "Female", "Other"]

/-- Source: `enum: ['Day', 'Night', 'Rotating']` from `models/Staff.js`. -/
def shiftEnum : List String := ["Day", "Night", "Rotating"]

/-- Per-day `availableHours` entry of `models/Doctor.js`. -/
structure DayHours where
  start : Option String
  stop : Option String
deriving DecidableEq

/-- Nested `availableHours` object of `models/Doctor.js`. -/
structure AvailableHours where
  monday : DayHours
  tuesday : DayHours
  wednesday : DayHours
  thursday : DayHours
  friday : DayHours
  saturday : DayHours
  sunday : DayHours
deriving DecidableEq

/-- Source: `models/Doctor.js` (doctorSchema). -/
structure Doctor where
  id : Nat
  userId : Nat
  hospitalId : String
  licenseNumber : Option String
  specialization : Option String
  department : Option String
  experience : Option Int
  qualifications : List String
  consultationFee : Option Int
  availableHours : AvailableHours
  status : String
  rating : Int
  totalPatients : Int
  createdAt : Nat
deriving DecidableEq

/-- The JSON body of `POST /api/doctors` / `PUT /api/doctors/:id`. -/
structure DoctorBody where
  userId : Option Nat
  hospitalId : Option String
  licenseNumber : Option String
  specialization : Option String
  department : Option String
  experience : Option Int
  qualifications : Option (List String)
  consultationFee : Option Int
  availableHours : Option AvailableHours
  status : Option String
  rating : Option Int
  totalPatients : Option Int
deriving DecidableEq

/-- Source: `enum: ['Available', 'Busy', 'Off Duty']` from `models/Doctor.js`. -/
def doctorStatusEnum : List String := ["Available", "Busy", "Off Duty"]

/-! ### Middleware -/

/-- Source: `res.status(403)` with a permission-denied message.  The exact body is
not in the analysed sources (see `authorize`); status 403 is the
authorization-failure code fixed by the HTTP surface. -/
def accessDeniedResponse : ApiResponse α :=
  { status := 403, success := false, message := some "Access denied", data := none, pagination := none }

/-- Source: `res.status(400).json({success: false, message: 'Validation errors', errors})`
from the `validationResult` check in `POST /api/patients`. -/
def validationErrorsResponse : ApiResponse α :=
  { status := 400, success := false, message := some "Validation errors", data := none, pagination := none }

/-- Source: `res.json({success: true, message})` (no data field). -/
def okMsg (msg : String) : ApiResponse α :=
  { status := 200, success := true, message := some msg, data := none, pagination := none }

/-- Modelled from the spec: the authorization middleware
(`authorize(...roles)` in `middleware/auth.js`, which is not among the
analysed sources — only its call sites are).  Per the spec it is
"parameterized by a set of permitted roles per route", "compares the
authenticated role against the permitted set" and "allows the request to
proceed only on membership; otherwise fails with a permission-denied
error". -/
def authorize (permitted : List String) (role : String) : Bool :=
  permitted.contains role

/-! ### routes/patients.js -/

/-- Query-string parameters of `GET /api/patients`. -/
structure PatientsListQuery where
  page : Option Int
  limit : Option Int
  search : Option String
  status : Option String
deriving DecidableEq

/-- The `$or` regex search over firstName/lastName/email/phone built by
`GET /api/patients` when `req.query.search` is truthy. -/
def patientTextMatch (s : String) (r : Patient) : Bool :=
  containsCI r.firstName s || containsCI r.lastName s ||
    containsCI r.email s || containsCI r.phone s

/-- The Mongo query object built by `GET /api/patients`:
`{hospitalId: req.hospitalId}` plus the optional search `$or` and status
filters (an absent or empty — falsy — query value adds no filter). -/
def patientQueryMatch (hid : String) (q : PatientsListQuery) (r : Patient) : Bool :=
  r.hospitalId == hid &&
    (match q.search with
     | none => true
     | some s => s == "" || patientTextMatch s r) &&
    (match q.status with
     | none => true
     | some s => s == "" || r.status == s)

/-- Source: `GET /api/patients` (lines 11–60 of routes/patients.js): pagination via
`page = parseInt(req.query.page) || 1`, `limit = parseInt(req.query.limit) || 10`,
`skip = (page - 1) * limit`, sort `{createdAt: -1}`, then `.skip(skip).limit(limit)`
and `countDocuments`.  MongoDB rejects a negative skip, which the handler's
`catch` converts to a 500 response; a negative limit is treated by MongoDB
as its absolute value. -/
def getPatients (hid : String) (q : PatientsListQuery) (db : List Patient) :
    ApiResponse (List Patient) :=
  let page := jsParseOr q.page 1
  let limit := jsParseOr q.limit 10
  let skip := (page - 1) * limit
  let rows := db.filter (patientQueryMatch hid q)
  if skip < 0 then serverErrorResponse
  else
    { status := 200, success := true, message := none,
      data := some (((sortBy (fun a b => b.createdAt ≤ a.createdAt) rows).drop skip.toNat).take limit.natAbs),
      pagination := some { page := page, limit := limit, total := rows.length,
                           pages := jsCeilDiv rows.length limit } }

/-- The tenant-scoped primary-key filter `{_id: req.params.id, hospitalId: req.hospitalId}`
used by every by-id patient operation. -/
def patientPred (pid : Nat) (hid : String) (r : Patient) : Bool :=
  r.id == pid && r.hospitalId == hid

/-- Source: `GET /api/patients/:id` (lines 65–91). -/
def getPatientById (hid : String) (pid : Nat) (db : List Patient) : ApiResponse Patient :=
  match db.find? (patientPred pid hid) with
  | none => notFoundResponse "Patient not found"
  | some r => okData r

/-- The record built by `POST /api/patients`:
`{...req.body, hospitalId: req.hospitalId}` — the spread comes first, so the
handler's `hospitalId` overrides any body-supplied value.  The Patient
schema is not among the analysed sources, so absent body fields default to
empty values here; `newId`/`now` stand for the generated ObjectId and the
`timestamps: true` creation time. -/
def patientOfBody (hid : String) (newId now : Nat) (b : PatientBody) : Patient :=
  { id := newId, hospitalId := hid,
    firstName := b.firstName.getD "", lastName := b.lastName.getD "",
    email := b.email.getD "", phone := b.phone.getD "",
    dateOfBirth := b.dateOfBirth.getD "", gender := b.gender.getD "",
    status := b.status.getD "", lastVisit := b.lastVisit, createdAt := now }

/-- Source: `POST /api/patients` (lines 96–137) including its middleware chain
`[auth, authorize('doctor', 'hospitalOwner', 'staff'), ...validators]`.
`bodyValid` is the outcome of the express-validator chain
(`validationResult(req).isEmpty()`); its individual `isEmail`/`isISO8601`
checks are not reproduced. -/
def postPatients (role hid : String) (newId now : Nat) (bodyValid : Bool)
    (b : PatientBody) (db : List Patient) : ApiResponse Patient × List Patient :=
  if ¬ authorize ["doctor", "hospitalOwner", "staff"] role then (accessDeniedResponse, db)
  else if ¬ bodyValid then (validationErrorsResponse, db)
  else
    let p := patientOfBody hid newId now b
    (createdResponse "Patient created successfully" p, db ++ [p])

/-- Source: `$set`-application of a `PUT /api/patients/:id` body to a stored patient
(a Mongoose update with a plain object sets exactly the supplied paths). -/
def applyPatientBody (b : PatientBody) (r : Patient) : Patient :=
  { r with
    hospitalId := b.hospitalId.getD r.hospitalId,
    firstName := b.firstName.getD r.firstName,
    lastName := b.lastName.getD r.lastName,
    email := b.email.getD r.email,
    phone := b.phone.getD r.phone,
    dateOfBirth := b.dateOfBirth.getD r.dateOfBirth,
    gender := b.gender.getD r.gender,
    status := b.status.getD r.status,
    lastVisit := b.lastVisit.orElse (fun _ => r.lastVisit) }

/-- Source: `PUT /api/patients/:id` (lines 142–173): tenant-scoped
`findOneAndUpdate` with `{new: true}`. -/
def updatePatient (hid : String) (pid : Nat) (b : PatientBody) (db : List Patient) :
    ApiResponse Patient × List Patient :=
  match db.find? (patientPred pid hid) with
  | none => (notFoundResponse "Patient not found", db)
  | some r =>
    (okMsgData "Patient updated successfully" (applyPatientBody b r),
     updateFirst (patientPred pid hid) (applyPatientBody b) db)

/-- Source: `DELETE /api/patients/:id` (lines 178–207): tenant-scoped
`findOneAndDelete`; the success response carries no data field. -/
def deletePatient (hid : String) (pid : Nat) (db : List Patient) :
    ApiResponse Patient × List Patient :=
  match db.find? (patientPred pid hid) with
  | none => (notFoundResponse "Patient not found", db)
  | some _ =>
    (okMsg "Patient deleted successfully", removeFirst (patientPred pid hid) db)

/-! ### routes/appointments.js -/

/-- Query-string parameters of `GET /api/appointments`. -/
structure ApptListQuery where
  page : Option Int
  limit : Option Int
  status : Option String
  startDate : Option Nat
  endDate : Option Nat
deriving DecidableEq

/-- The Mongo query object built by `GET /api/appointments`: tenant filter
plus optional status filter and `$gte/$lte` date-range filter (added only
when both bounds are supplied). -/
def apptQueryMatch (hid : String) (q : ApptListQuery) (r : Appointment) : Bool :=
  r.hospitalId == hid &&
    (match q.status with
     | none => true
     | some s => s == "" || r.status == s) &&
    (match q.startDate, q.endDate with
     | some s, some e => s ≤ r.appointmentDate && r.appointmentDate ≤ e
     | _, _ => true)

/-- Source: `GET /api/appointments` (lines 10–59): same pagination arithmetic as
`GET /api/patients`, sorted by `{appointmentDate: 1, appointmentTime: 1}`. -/
def getAppointments (hid : String) (q : ApptListQuery) (db : List Appointment) :
    ApiResponse (List Appointment) :=
  let page := jsParseOr q.page 1
  let limit := jsParseOr q.limit 10
  let skip := (page - 1) * limit
  let rows := db.filter (apptQueryMatch hid q)
  if skip < 0 then serverErrorResponse
  else
    { status := 200, success := true, message := none,
      data := some (((sortBy
        (fun a b => a.appointmentDate < b.appointmentDate ||
          (a.appointmentDate == b.appointmentDate && a.appointmentTime ≤ b.appointmentTime)) rows).drop
          skip.toNat).take limit.natAbs),
      pagination := some { page := page, limit := limit, total := rows.length,
                           pages := jsCeilDiv rows.length limit } }

/-- The tenant-scoped primary-key filter used by the by-id appointment
operations. -/
def apptPred (aid : Nat) (hid : String) (r : Appointment) : Bool :=
  r.id == aid && r.hospitalId == hid

/-- Schema validation run by `new Appointment(data).save()`: required paths
present and `status`/`type` within their enums. -/
def validNewAppointment (b : AppointmentBody) : Bool :=
  b.patientId.isSome && b.doctorId.isSome && b.appointmentDate.isSome &&
    b.appointmentTime.isSome && b.reason.isSome &&
    appointmentStatusEnum.contains (b.status.getD "Scheduled") &&
    appointmentTypeEnum.contains (b.type.getD "In-Person")

/-- The record built by `POST /api/appointments`:
`{...req.body, hospitalId: req.hospitalId, createdBy: req.user._id}` — the
handler's `hospitalId` and `createdBy` override any body-supplied values;
schema defaults fill `duration` (30), `type` ('In-Person') and `status`
('Scheduled'). -/
def appointmentOfBody (hid : String) (uid newId : Nat) (b : AppointmentBody) : Appointment :=
  { id := newId, hospitalId := hid,
    patientId := b.patientId.getD 0, doctorId := b.doctorId.getD 0,
    appointmentDate := b.appointmentDate.getD 0,
    appointmentTime := b.appointmentTime.getD "",
    duration := b.duration.getD 30, department := b.department,
    reason := b.reason.getD "", type := b.type.getD "In-Person",
    status := b.status.getD "Scheduled", location := b.location,
    notes := b.notes, createdBy := uid }

/-- Source: `POST /api/appointments` (lines 64–98): a failed `save()` (schema
validation) lands in the `catch` branch as a 500 with the store
unchanged. -/
def createAppointment (hid : String) (uid newId : Nat) (b : AppointmentBody)
    (db : List Appointment) : ApiResponse Appointment × List Appointment :=
  if ¬ validNewAppointment b then (serverErrorResponse, db)
  else
    let a := appointmentOfBody hid uid newId b
    (createdResponse "Appointment created successfully" a, db ++ [a])

/-- Source: `runValidators: true` on `PUT /api/appointments/:id`: updated enum paths
must stay within their enums; no other constraint relates the new status to
the old one. -/
def validAppointmentUpdate (b : AppointmentBody) : Bool :=
  (match b.status with
   | none => true
   | some s => appointmentStatusEnum.contains s) &&
  (match b.type with
   | none => true
   | some t => appointmentTypeEnum.contains t)

/-- Source: `$set`-application of a `PUT /api/appointments/:id` body. -/
def applyAppointmentBody (b : AppointmentBody) (r : Appointment) : Appointment :=
  { id := r.id,
    hospitalId := b.hospitalId.getD r.hospitalId,
    patientId := b.patientId.getD r.patientId,
    doctorId := b.doctorId.getD r.doctorId,
    appointmentDate := b.appointmentDate.getD r.appointmentDate,
    appointmentTime := b.appointmentTime.getD r.appointmentTime,
    duration := b.duration.getD r.duration,
    department := b.department.orElse (fun _ => r.department),
    reason := b.reason.getD r.reason,
    type := b.type.getD r.type,
    status := b.status.getD r.status,
    location := b.location.orElse (fun _ => r.location),
    notes := b.notes.orElse (fun _ => r.notes),
    createdBy := b.createdBy.getD r.createdBy }

/-- Source: `PUT /api/appointments/:id` (lines 103–138): tenant-scoped
`findOneAndUpdate(filter, req.body, {new: true, runValidators: true})`; a
validator rejection lands in the `catch` branch as a 500 with the store
unchanged. -/
def updateAppointment (hid : String) (aid : Nat) (b : AppointmentBody)
    (db : List Appointment) : ApiResponse Appointment × List Appointment :=
  if ¬ validAppointmentUpdate b then (serverErrorResponse, db)
  else
    match db.find? (apptPred aid hid) with
    | none => (notFoundResponse "Appointment not found", db)
    | some r =>
      (okMsgData "Appointment updated successfully" (applyAppointmentBody b r),
       updateFirst (apptPred aid hid) (applyAppointmentBody b) db)

/-- Source: `DELETE /api/appointments/:id` (lines 143–174): not a removal — a
tenant-scoped `findOneAndUpdate` setting only `{status: 'Cancelled'}`. -/
def cancelAppointment (hid : String) (aid : Nat) (db : List Appointment) :
    ApiResponse Appointment × List Appointment :=
  match db.find? (apptPred aid hid) with
  | none => (notFoundResponse "Appointment not found", db)
  | some r =>
    (okMsgData "Appointment cancelled successfully" { r with status := "Cancelled" },
     updateFirst (apptPred aid hid) (fun a => { a with status := "Cancelled" }) db)

/-! ### routes/staff.js -/

/-- Query-string parameters of `GET /api/staff`. -/
structure StaffListQuery where
  page : Option Int
  limit : Option Int
  department : Option String
  role : Option String
  search : Option String
deriving DecidableEq

/-- The `$or` regex search over employeeId/firstName/lastName built by
`GET /api/staff` when `req.query.search` is truthy. -/
def staffTextMatch (s : String) (r : Staff) : Bool :=
  containsCI r.employeeId s || containsCI r.firstName s || containsCI r.lastName s

/-- The Mongo query object built by `GET /api/staff`: tenant filter plus
optional department, role and search filters. -/
def staffQueryMatch (hid : String) (q : StaffListQuery) (r : Staff) : Bool :=
  r.hospitalId == hid &&
    (match q.department with
     | none => true
     | some d => d == "" || r.department == d) &&
    (match q.role with
     | none => true
     | some ro => ro == "" || r.role == ro) &&
    (match q.search with
     | none => true
     | some s => s == "" || staffTextMatch s r)

/-- Source: `GET /api/staff` (lines 11–68): same pagination arithmetic as
`GET /api/patients`, sorted by `{firstName: 1, lastName: 1}`. -/
def getStaffList (hid : String) (q : StaffListQuery) (db : List Staff) :
    ApiResponse (List Staff) :=
  let page := jsParseOr q.page 1
  let limit := jsParseOr q.limit 10
  let skip := (page - 1) * limit
  let rows := db.filter (staffQueryMatch hid q)
  if skip < 0 then serverErrorResponse
  else
    { status := 200, success := true, message := none,
      data := some (((sortBy
        (fun a b => a.firstName < b.firstName ||
          (a.firstName == b.firstName && a.lastName ≤ b.lastName)) rows).drop
          skip.toNat).take limit.natAbs),
      pagination := some { page := page, limit := limit, total := rows.length,
                           pages := jsCeilDiv rows.length limit } }

/-- The tenant-scoped primary-key filter used by the by-id staff
operations. -/
def staffPred (sid : Nat) (hid : String) (r : Staff) : Bool :=
  r.id == sid && r.hospitalId == hid

/-- The User record built by `POST /api/staff`:
`{...userData, role: 'staff', hospitalId: req.hospitalId}` — `role` and
`hospitalId` override any body-supplied values. -/
def userOfBody (hid : String) (newUserId : Nat) (ub : UserBody) : User :=
  { id := newUserId, name := ub.name.getD "", email := ub.email.getD "",
    role := "staff", hospitalId := hid }

/-- The Staff record built by `POST /api/staff`:
`{...staffData, userId: user._id, hospitalId: req.hospitalId}`; schema
defaults fill `status` ('active'), `joiningDate` (`Date.now`) and the
workSchedule shift ('Day'). -/
def staffOfBody (hid : String) (newStaffId uid now : Nat) (b : StaffBody) : Staff :=
  { id := newStaffId, userId := uid, hospitalId := hid,
    employeeId := b.employeeId.getD "",
    firstName := b.firstName.getD "", lastName := b.lastName.getD "",
    department := b.department.getD "", role := b.role.getD "",
    phone := b.phone.getD "", email := b.email.getD "",
    address := b.address.getD { street := none, city := none, state := none,
                                zipCode := none, country := none },
    dateOfBirth := b.dateOfBirth, gender := b.gender.getD "",
    emergencyContact := b.emergencyContact.getD
      { name := none, relationship := none, phone := none },
    joiningDate := b.joiningDate.getD now, salary := b.salary.getD 0,
    workSchedule := b.workSchedule.getD
      { shift := "Day", workingDays := [], workingHours := { start := none, stop := none } },
    qualifications := b.qualifications.getD [],
    certifications := b.certifications.getD [],
    status := b.status.getD "active", notes := b.notes }

/-- Source: `POST /api/staff` (lines 73–116): two sequential, non-transactional
writes — `user.save()` then `staff.save()`.  `userSaveOk`/`staffSaveOk`
model the outcome of each persistence step (schema validation, the unique
`employeeId` index, or an I/O failure); a rejection at either step jumps to
the shared `catch` branch, leaving whatever was already written in place. -/
def createStaff (hid : String) (newUserId newStaffId now : Nat)
    (ub : UserBody) (sb : StaffBody) (userSaveOk staffSaveOk : Bool)
    (users : List User) (staffs : List Staff) :
    ApiResponse Staff × List User × List Staff :=
  if ¬ userSaveOk then (serverErrorResponse, users, staffs)
  else
    let u := userOfBody hid newUserId ub
    let users' := users ++ [u]
    if ¬ staffSaveOk then (serverErrorResponse, users', staffs)
    else
      let s := staffOfBody hid newStaffId u.id now sb
      (createdResponse "Staff member created successfully" s, users', staffs ++ [s])

/-- Source: `runValidators: true` on `PUT /api/staff/:id`: updated enum paths must
stay within their enums. -/
def validStaffUpdate (b : StaffBody) : Bool :=
  (match b.department with
   | none => true
   | some d => staffDepartmentEnum.contains d) &&
  (match b.gender with
   | none => true
   | some g => genderEnum.contains g) &&
  (match b.status with
   | none => true
   | some s => staffStatusEnum.contains s) &&
  (match b.workSchedule with
   | none => true
   | some w => shiftEnum.contains w.shift)

/-- Source: `$set`-application of a `PUT /api/staff/:id` body. -/
def applyStaffBody (b : StaffBody) (r : Staff) : Staff :=
  { id := r.id,
    userId := b.userId.getD r.userId,
    employeeId := b.employeeId.getD r.employeeId,
    firstName := b.firstName.getD r.firstName,
    lastName := b.lastName.getD r.lastName,
    department := b.department.getD r.department,
    role := b.role.getD r.role,
    phone := b.phone.getD r.phone,
    email := b.email.getD r.email,
    address := b.address.getD r.address,
    dateOfBirth := b.dateOfBirth.orElse (fun _ => r.dateOfBirth),
    gender := b.gender.getD r.gender,
    emergencyContact := b.emergencyContact.getD r.emergencyContact,
    joiningDate := b.joiningDate.getD r.joiningDate,
    salary := b.salary.getD r.salary,
    workSchedule := b.workSchedule.getD r.workSchedule,
    qualifications := b.qualifications.getD r.qualifications,
    certifications := b.certifications.getD r.certifications,
    status := b.status.getD r.status,
    hospitalId := b.hospitalId.getD r.hospitalId,
    notes := b.notes.orElse (fun _ => r.notes) }

/-- Source: `PUT /api/staff/:id` (lines 121–152): tenant-scoped `findOneAndUpdate`
with `{new: true, runValidators: true}`. -/
def updateStaff (hid : String) (sid : Nat) (b : StaffBody) (db : List Staff) :
    ApiResponse Staff × List Staff :=
  if ¬ validStaffUpdate b then (serverErrorResponse, db)
  else
    match db.find? (staffPred sid hid) with
    | none => (notFoundResponse "Staff member not found", db)
    | some r =>
      (okMsgData "Staff member updated successfully" (applyStaffBody b r),
       updateFirst (staffPred sid hid) (applyStaffBody b) db)

/-- Source: `DELETE /api/staff/:id` (lines 157–188): not a removal — a
tenant-scoped `findOneAndUpdate` setting only `{status: 'inactive'}`. -/
def deactivateStaff (hid : String) (sid : Nat) (db : List Staff) :
    ApiResponse Staff × List Staff :=
  match db.find? (staffPred sid hid) with
  | none => (notFoundResponse "Staff member not found", db)
  | some r =>
    (okMsgData "Staff member deactivated successfully" { r with status := "inactive" },
     updateFirst (staffPred sid hid) (fun a => { a with status := "inactive" }) db)

/-! ### routes/doctors.js -/

/-- The tenant-scoped primary-key filter used by the by-id doctor
operations. -/
def doctorPred (did : Nat) (hid : String) (r : Doctor) : Bool :=
  r.id == did && r.hospitalId == hid

/-- Source: `GET /api/doctors` (lines 11–29): tenant-filtered list, sorted by
`{createdAt: -1}`, no pagination. -/
def getDoctors (hid : String) (db : List Doctor) : ApiResponse (List Doctor) :=
  okData (sortBy (fun a b => b.createdAt ≤ a.createdAt)
    (db.filter (fun r => r.hospitalId == hid)))

/-- Source: `GET /api/doctors/:id` (lines 34–60). -/
def getDoctorById (hid : String) (did : Nat) (db : List Doctor) : ApiResponse Doctor :=
  match db.find? (doctorPred did hid) with
  | none => notFoundResponse "Doctor not found"
  | some r => okData r

/-- Schema validation run by `new Doctor(data).save()`: the enum `status`
and the `rating` range (`min: 0, max: 5`); `userId` and `hospitalId` are
supplied by the handler itself. -/
def validNewDoctor (b : DoctorBody) : Bool :=
  doctorStatusEnum.contains (b.status.getD "Available") &&
    (0 ≤ b.rating.getD 0 && b.rating.getD 0 ≤ 5)

/-- The record built by `POST /api/doctors`:
`{...req.body, hospitalId: req.hospitalId, userId: req.user._id}` — the
handler's `hospitalId` and `userId` override any body-supplied values. -/
def doctorOfBody (hid : String) (uid newId now : Nat) (b : DoctorBody) : Doctor :=
  { id := newId, userId := uid, hospitalId := hid,
    licenseNumber := b.licenseNumber, specialization := b.specialization,
    department := b.department, experience := b.experience,
    qualifications := b.qualifications.getD [],
    consultationFee := b.consultationFee,
    availableHours := b.availableHours.getD
      { monday := { start := none, stop := none }, tuesday := { start := none, stop := none },
        wednesday := { start := none, stop := none }, thursday := { start := none, stop := none },
        friday := { start := none, stop := none }, saturday := { start := none, stop := none },
        sunday := { start := none, stop := none } },
    status := b.status.getD "Available", rating := b.rating.getD 0,
    totalPatients := b.totalPatients.getD 0, createdAt := now }

/-- Source: `POST /api/doctors` (lines 65–95): saves the doctor profile and then
unconditionally runs `User.findByIdAndUpdate(req.user._id, {role: 'doctor'})`
— a by-id update with no tenant filter and no role guard on the current
value.  A failed `save()` jumps to `catch` before the user update runs. -/
def createDoctor (hid : String) (uid newId now : Nat) (b : DoctorBody)
    (users : List User) (docs : List Doctor) :
    ApiResponse Doctor × List User × List Doctor :=
  if ¬ validNewDoctor b then (serverErrorResponse, users, docs)
  else
    let d := doctorOfBody hid uid newId now b
    (createdResponse "Doctor profile created successfully" d,
     updateFirst (fun u => u.id == uid) (fun u => { u with role := "doctor" }) users,
     docs ++ [d])

/-- Source: `runValidators: true` on `PUT /api/doctors/:id`. -/
def validDoctorUpdate (b : DoctorBody) : Bool :=
  (match b.status with
   | none => true
   | some s => doctorStatusEnum.contains s) &&
  (match b.rating with
   | none => true
   | some x => 0 ≤ x && x ≤ 5)

/-- Source: `$set`-application of a `PUT /api/doctors/:id` body. -/
def applyDoctorBody (b : DoctorBody) (r : Doctor) : Doctor :=
  { id := r.id,
    userId := b.userId.getD r.userId,
    hospitalId := b.hospitalId.getD r.hospitalId,
    licenseNumber := b.licenseNumber.orElse (fun _ => r.licenseNumber),
    specialization := b.specialization.orElse (fun _ => r.specialization),
    department := b.department.orElse (fun _ => r.department),
    experience := b.experience.orElse (fun _ => r.experience),
    qualifications := b.qualifications.getD r.qualifications,
    consultationFee := b.consultationFee.orElse (fun _ => r.consultationFee),
    availableHours := b.availableHours.getD r.availableHours,
    status := b.status.getD r.status,
    rating := b.rating.getD r.rating,
    totalPatients := b.totalPatients.getD r.totalPatients,
    createdAt := r.createdAt }

/-- Source: `PUT /api/doctors/:id` (lines 100–131): tenant-scoped
`findOneAndUpdate` with `{new: true, runValidators: true}`. -/
def updateDoctor (hid : String) (did : Nat) (b : DoctorBody) (db : List Doctor) :
    ApiResponse Doctor × List Doctor :=
  if ¬ validDoctorUpdate b then (serverErrorResponse, db)
  else
    match db.find? (doctorPred did hid) with
    | none => (notFoundResponse "Doctor not found", db)
    | some r =>
      (okMsgData "Doctor updated successfully" (applyDoctorBody b r),
       updateFirst (doctorPred did hid) (applyDoctorBody b) db)

/-! ### Route middleware chains (authorization gate)

The `auth` middleware (credential check + tenant resolution) has already
produced `role`/`hid` below; the `authorize` gate then runs before the
handler body, so a denied role short-circuits with the store untouched. -/

/-- Source: `POST /api/staff` route with its `[auth, authorize('hospitalOwner')]`
chain. -/
def postStaffRoute (role hid : String) (newUserId newStaffId now : Nat)
    (ub : UserBody) (sb : StaffBody) (userSaveOk staffSaveOk : Bool)
    (users : List User) (staffs : List Staff) :
    ApiResponse Staff × List User × List Staff :=
  if ¬ authorize ["hospitalOwner"] role then (accessDeniedResponse, users, staffs)
  else createStaff hid newUserId newStaffId now ub sb userSaveOk staffSaveOk users staffs

/-! ### Express route matching (registration order)

Express dispatches a request to the first registered route whose path
pattern matches; `/:name` segments match any single path segment and bind
it as a parameter. -/

/-- One segment of a route pattern: a literal or a `:name` parameter. -/
inductive Seg where
  | lit (s : String)
  | param (name : String)
deriving DecidableEq

/-- Match a pattern against the path segments, returning the bound
parameters on success. -/
def matchPattern : List Seg → List String → Option (List (String × String))
  | [], [] => some []
  | Seg.lit s :: ps, x :: xs =>
    if s = x then matchPattern ps xs else none
  | Seg.param n :: ps, x :: xs =>
    (matchPattern ps xs).map ((n, x) :: ·)
  | _, _ => none

/-- First-match dispatch over routes in registration order. -/
def dispatch (routes : List (List Seg × α)) (path : List String) :
    Option (α × List (String × String)) :=
  match routes with
  | [] => none
  | (pat, h) :: rest =>
    match matchPattern pat path with
    | some params => some (h, params)
    | none => dispatch rest path

/-- Tags for the GET handlers of routes/patients.js. -/
inductive PatientsGetHandler where
  | list
  | getById
  | recent
deriving DecidableEq

/-- The GET routes of routes/patients.js in registration order:
`'/'` (line 11), `'/:id'` (line 65), `'/recent'` (line 212). -/
def patientsGetRoutes : List (List Seg × PatientsGetHandler) :=
  [([], PatientsGetHandler.list),
   ([Seg.param "id"], PatientsGetHandler.getById),
   ([Seg.lit "recent"], PatientsGetHandler.recent)]

/-- Tags for the GET handlers of routes/doctors.js. -/
inductive DoctorsGetHandler where
  | list
  | getById
  | available
deriving DecidableEq

/-- The GET routes of routes/doctors.js in registration order:
`'/'` (line 11), `'/:id'` (line 34), `'/available'` (line 136). -/
def doctorsGetRoutes : List (List Seg × DoctorsGetHandler) :=
  [([], DoctorsGetHandler.list),
   ([Seg.param "id"], DoctorsGetHandler.getById),
   ([Seg.lit "available"], DoctorsGetHandler.available)]

/-! ### Sample records and bodies used by concrete witnesses -/

def samplePatient : Patient :=
  { id := 1, hospitalId := "h1", firstName := "Ann", lastName := "Lee",
    email := "ann@h1.test", phone := "123", dateOfBirth := "1990-01-01",
    gender := "Female", status := "Active", lastVisit := none, createdAt := 5 }

def sampleAppointment : Appointment :=
  { id := 1, hospitalId := "h1", patientId := 1, doctorId := 1,
    appointmentDate := 10, appointmentTime := "09:00", duration := 30,
    department := none, reason := "checkup", type := "In-Person",
    status := "Cancelled", location := none, notes := none, createdBy := 1 }

def sampleStaff : Staff :=
  { id := 1, userId := 7, employeeId := "E1", firstName := "Sam",
    lastName := "Day", department := "Nursing", role := "nurse",
    phone := "555", email := "sam@h1.test",
    address := { street := none, city := none, state := none, zipCode := none, country := none },
    dateOfBirth := none, gender := "Other",
    emergencyContact := { name := none, relationship := none, phone := none },
    joiningDate := 3, salary := 100,
    workSchedule := { shift := "Day", workingDays := [], workingHours := { start := none, stop := none } },
    qualifications := [], certifications := [], status := "active",
    hospitalId := "h1", notes := none }

def sampleDoctor : Doctor :=
  { id := 1, userId := 7, hospitalId := "h1", licenseNumber := none,
    specialization := some "cardiology", department := none, experience := none,
    qualifications := [], consultationFee := none,
    availableHours :=
      { monday := { start := none, stop := none }, tuesday := { start := none, stop := none },
        wednesday := { start := none, stop := none }, thursday := { start := none, stop := none },
        friday := { start := none, stop := none }, saturday := { start := none, stop := none },
        sunday := { start := none, stop := none } },
    status := "Available", rating := 0, totalPatients := 0, createdAt := 4 }

def sampleUser : User :=
  { id := 7, name := "Owner", email := "owner@h1.test",
    role := "hospitalOwner", hospitalId := "h1" }

/-- A create body that tries to smuggle in a foreign tenant id. -/
def evilPatientBody : PatientBody :=
  { hospitalId := some "h2", firstName := some "Bob", lastName := some "Roe",
    email := some "bob@h2.test", phone := some "1",
    dateOfBirth := some "1980-01-01", gender := some "Male",
    status := none, lastVisit := none }

/-- A create body that tries to smuggle in a foreign tenant id. -/
def evilApptBody : AppointmentBody :=
  { hospitalId := some "h2", patientId := some 1, doctorId := some 1,
    appointmentDate := some 3, appointmentTime := some "10:00",
    duration := none, department := none, reason := some "visit",
    type := none, status := none, location := none, notes := none,
    createdBy := some 99 }

def sampleUserBody : UserBody :=
  { name := some "New", email := some "new@h1.test",
    role := some "hospitalOwner", hospitalId := some "h2" }

/-- A create body that tries to smuggle in a foreign tenant id. -/
def evilStaffBody : StaffBody :=
  { userId := some 42, employeeId := some "E2", firstName := some "Pat",
    lastName := some "Kim", department := some "Nursing", role := some "nurse",
    phone := some "7", email := some "pat@h1.test", address := none,
    dateOfBirth := none, gender := some "Female", emergencyContact := none,
    joiningDate := none, salary := some 50, workSchedule := none,
    qualifications := none, certifications := none, status := none,
    hospitalId := some "h2", notes := none }

/-- A create body that supplies its own `userId` and a foreign tenant id. -/
def evilDoctorBody : DoctorBody :=
  { userId := some 999, hospitalId := some "h2", licenseNumber := none,
    specialization := none, department := none, experience := none,
    qualifications := none, consultationFee := none, availableHours := none,
    status := none, rating := none, totalPatients := none }

/-- An update body that supplies nothing. -/
def emptyPatientBody : PatientBody :=
  { hospitalId := none, firstName := none, lastName := none, email := none,
    phone := none, dateOfBirth := none, gender := none, status := none,
    lastVisit := none }

/-- An update body that supplies nothing. -/
def emptyStaffBody : StaffBody :=
  { userId := none, employeeId := none, firstName := none, lastName := none,
    department := none, role := none, phone := none, email := none,
    address := none, dateOfBirth := none, gender := none,
    emergencyContact := none, joiningDate := none, salary := none,
    workSchedule := none, qualifications := none, certifications := none,
    status := none, hospitalId := none, notes := none }

/-- An update body that supplies nothing. -/
def emptyDoctorBody : DoctorBody :=
  { userId := none, hospitalId := none, licenseNumber := none,
    specialization := none, department := none, experience := none,
    qualifications := none, consultationFee := none, availableHours := none,
    status := none, rating := none, totalPatients := none }

/-- An update body setting only the appointment status, as in the scenario
`Cancelled → Confirmed`. -/
def statusOnlyBody (s : String) : AppointmentBody :=
  { hospitalId := none, patientId := none, doctorId := none,
    appointmentDate := none, appointmentTime := none, duration := none,
    department := none, reason := none, type := none, status := some s,
    location := none, notes := none, createdBy := none }

/-- A plain list query: only `page` and `limit` supplied
(`GET /api/patients?page=..&limit=..`). -/
def plainPatientsQuery (page limit : Int) : PatientsListQuery :=
  { page := some page, limit := some limit, search := none, status := none }

/-- A plain list query: only `page` and `limit` supplied
(`GET /api/staff?page=..&limit=..`). -/
def plainStaffQuery (page limit : Int) : StaffListQuery :=
  { page := some page, limit := some limit, department := none, role := none,
    search := none }

theorem updateFirst_eq_self (p : α → Bool) (f : α → α) (l : List α)
    (h : ∀ a ∈ l, ¬ p a) : updateFirst p f l = l := by
  induction l with
  | nil => rfl
  | cons a as ih =>
    have ha : ¬ p a := h a (List.mem_cons_self ..)
    simp only [updateFirst]
    rw [if_neg ha, ih fun x hx => h x (List.mem_cons_of_mem _ hx)]

theorem removeFirst_eq_self (p : α → Bool) (l : List α)
    (h : ∀ a ∈ l, ¬ p a) : removeFirst p l = l := by
  induction l with
  | nil => rfl
  | cons a as ih =>
    have ha : ¬ p a := h a (List.mem_cons_self ..)
    simp only [removeFirst]
    rw [if_neg ha, ih fun x hx => h x (List.mem_cons_of_mem _ hx)]

theorem find?_eq_none_of_all_not (p : α → Bool) (l : List α)
    (h : ∀ a ∈ l, ¬ p a) : l.find? p = none :=
  List.find?_eq_none.2 h

/-- When `r` is the unique element of `l` satisfying `p`, `find?` returns it. -/
theorem find?_eq_of_unique (p : α → Bool) (l : List α) (r : α)
    (hr : r ∈ l) (hp : p r)
    (hu : ∀ x ∈ l, p x → x = r) : l.find? p = some r := by
  induction l with
  | nil => cases hr
  | cons a as ih =>
    by_cases hpa : p a
    · have ha : a = r := hu a (List.mem_cons_self ..) hpa
      subst ha
      exact List.find?_cons_of_pos _ hpa
    · rw [List.find?_cons_of_neg _ hpa]
      have hne : a ≠ r := fun h => hpa (h ▸ hp)
      have hr' : r ∈ as := by
        rcases List.mem_cons.1 hr with h | h
        · exact absurd h.symm hne
        · exact h
      exact ih hr' fun x hx hpx => hu x (List.mem_cons_of_mem _ hx) hpx

theorem updateFirst_mem_of_unique (p : α → Bool) (f : α → α) (l : List α) (r : α)
    (hr : r ∈ l) (hp : p r)
    (hu : ∀ x ∈ l, p x → x = r) :
    f r ∈ updateFirst p f l := by
  induction l with
  | nil => cases hr
  | cons a as ih =>
    by_cases hpa : p a
    · have ha : a = r := hu a (List.mem_cons_self ..) hpa
      subst ha
      simp [updateFirst, hp]
    · simp only [updateFirst]
      rw [if_neg hpa]
      have hne : a ≠ r := fun h => hpa (h ▸ hp)
      have hr' : r ∈ as := by
        rcases List.mem_cons.1 hr with h | h
        · exact absurd h.symm hne
        · exact h
      exact List.mem_cons_of_mem _
        (ih hr' fun x hx hpx => hu x (List.mem_cons_of_mem _ hx) hpx)

/-- After removing the first match from a list holding at most one match,
no element matches any more. -/
theorem removeFirst_no_match (p : α → Bool) (l : List α)
    (hcount : (l.filter p).length ≤ 1) :
    ∀ x ∈ removeFirst p l, ¬ p x := by
  induction l with
  | nil => intro x hx; cases hx
  | cons a as ih =>
    intro x hx
    by_cases hpa : p a
    · simp only [removeFirst] at hx
      rw [if_pos hpa] at hx
      have h0 : (as.filter p).length = 0 := by
        rw [List.filter_cons_of_pos hpa] at hcount
        simp only [List.length_cons] at hcount
        omega
      have hnil : as.filter p = [] := List.length_eq_zero.1 h0
      intro hpx
      have : x ∈ as.filter p := List.mem_filter.2 ⟨hx, hpx⟩
      rw [hnil] at this
      cases this
    · simp only [removeFirst] at hx
      rw [if_neg hpa] at hx
      rcases List.mem_cons.1 hx with rfl | hx'
      · exact hpa
      · refine ih ?_ x hx'
        rw [List.filter_cons_of_neg hpa] at hcount
        exact hcount

theorem length_insertSorted (le : α → α → Bool) (a : α) (l : List α) :
    (insertSorted le a l).length = l.length + 1 := by
  induction l with
  | nil => rfl
  | cons b bs ih =>
    simp only [insertSorted]
    by_cases h : le a b
    · rw [if_pos h]; simp
    · rw [if_neg h]; simp [ih]

theorem length_sortBy (le : α → α → Bool) (l : List α) :
    (sortBy le l).length = l.length := by
  induction l with
  | nil => rfl
  | cons a as ih => simp [sortBy, length_insertSorted, ih]

/-! ### Claims -/

/-- C8: `GET /api/patients/recent` and `GET /api/doctors/available` are
dispatched to the earlier-registered `GET /:id` route with the literal
`'recent'` (resp. `'available'`) bound as the `id` parameter, so the
dedicated handlers registered later are never reached. -/
theorem c8_static_routes_shadowed_by_param_route :
    dispatch patientsGetRoutes ["recent"] =
      some (PatientsGetHandler.getById, [("id", "recent")]) ∧
    dispatch doctorsGetRoutes ["available"] =
      some (DoctorsGetHandler.getById, [("id", "available")]) := by
  constructor <;> rfl

/-- C7: `POST /api/staff` performs its two writes sequentially without a
transaction: when the User save succeeds and the Staff save fails, the
response is an error (500) yet the User record persists with no linked
Staff profile. -/
theorem c7_staff_creation_not_atomic (hid : String) (nu ns now : Nat)
    (ub : UserBody) (sb : StaffBody) (users : List User) (staffs : List Staff) :
    createStaff hid nu ns now ub sb true false users staffs =
      (serverErrorResponse, users ++ [userOfBody hid nu ub], staffs) ∧
    (serverErrorResponse : ApiResponse Staff).success = false := by
  exact ⟨rfl, rfl⟩

/-- C2: every successful create (`POST /api/patients`, `POST /api/appointments`,
`POST /api/staff`, `POST /api/doctors`) persists the record with
`hospitalId` equal to the request's resolved tenant id, for every body —
including bodies that supply their own `hospitalId`. -/
theorem c2_create_stamps_resolved_tenant
    (role hid : String) (newId now uid nu ns : Nat) (bv uok sok : Bool)
    (pb : PatientBody) (ab : AppointmentBody) (ub : UserBody) (sb : StaffBody)
    (db2 : DoctorBody) (dbp : List Patient) (dba : List Appointment)
    (users : List User) (staffs : List Staff) (docs : List Doctor) :
    (∀ p, (postPatients role hid newId now bv pb dbp).1.data = some p →
      p.hospitalId = hid ∧ (postPatients role hid newId now bv pb dbp).2 = dbp ++ [p]) ∧
    (∀ a, (createAppointment hid uid newId ab dba).1.data = some a →
      a.hospitalId = hid ∧ (createAppointment hid uid newId ab dba).2 = dba ++ [a]) ∧
    (∀ s, (createStaff hid nu ns now ub sb uok sok users staffs).1.data = some s →
      s.hospitalId = hid ∧
      (createStaff hid nu ns now ub sb uok sok users staffs).2.1 =
        users ++ [userOfBody hid nu ub] ∧
      (userOfBody hid nu ub).hospitalId = hid ∧
      (createStaff hid nu ns now ub sb uok sok users staffs).2.2 = staffs ++ [s]) ∧
    (∀ d, (createDoctor hid uid newId now db2 users docs).1.data = some d →
      d.hospitalId = hid ∧
      (createDoctor hid uid newId now db2 users docs).2.2 = docs ++ [d]) := by
  refine ⟨?_, ?_, ?_, ?_⟩
  · intro p hp
    by_cases h1 : authorize ["doctor", "hospitalOwner", "staff"] role
    · by_cases h2 : bv = true
      · subst h2
        simp only [postPatients, h1, not_true, if_neg, if_false] at hp ⊢
        simp only [createdResponse] at hp
        simp only [Option.some.injEq] at hp
        subst hp
        exact ⟨rfl, by simp [postPatients, h1, createdResponse]⟩
      · have h2' : bv = false := by revert h2; cases bv <;> simp
        subst h2'
        simp [postPatients, h1, validationErrorsResponse] at hp
    · simp [postPatients, h1, accessDeniedResponse] at hp
  · intro a ha
    by_cases h1 : validNewAppointment ab
    · simp only [createAppointment, h1, not_true, if_false, createdResponse,
        Option.some.injEq] at ha ⊢
      subst ha
      exact ⟨rfl, by simp [createAppointment, h1, createdResponse]⟩
    · simp [createAppointment, h1, serverErrorResponse] at ha
  · intro s hs
    by_cases h1 : uok = true
    · subst h1
      by_cases h2 : sok = true
      · subst h2
        simp only [createStaff, not_true, if_false, createdResponse,
          Option.some.injEq] at hs ⊢
        subst hs
        exact ⟨rfl, by simp [createStaff, createdResponse], rfl, by simp [createStaff, createdResponse]⟩
      · have h2' : sok = false := by revert h2; cases sok <;> simp
        subst h2'
        simp [createStaff, serverErrorResponse] at hs
    · have h1' : uok = false := by revert h1; cases uok <;> simp
      subst h1'
      simp [createStaff, serverErrorResponse] at hs
  · intro d hd
    by_cases h1 : validNewDoctor db2
    · simp only [createDoctor, h1, not_true, if_false, createdResponse,
        Option.some.injEq] at hd ⊢
      subst hd
      exact ⟨rfl, by simp [createDoctor, h1, createdResponse]⟩
    · simp [createDoctor, h1, serverErrorResponse] at hd

/-- Witness for C2 at concrete inputs: bodies smuggling `hospitalId: "h2"`
into requests resolved to tenant `"h1"` still persist `"h1"`. -/
theorem c2_witness :
    (patientOfBody "h1" 10 0 evilPatientBody).hospitalId = "h1" ∧
    (appointmentOfBody "h1" 7 10 evilApptBody).hospitalId = "h1" ∧
    (staffOfBody "h1" 12 8 0 evilStaffBody).hospitalId = "h1" ∧
    (doctorOfBody "h1" 7 10 0 evilDoctorBody).hospitalId = "h1" := by
  have h := c2_create_stamps_resolved_tenant "doctor" "h1" 10 0 7 8 12 true true true
    evilPatientBody evilApptBody sampleUserBody evilStaffBody evilDoctorBody
    [] [] [] [] []
  refine ⟨?_, ?_, ?_, ?_⟩
  · exact (h.1 (patientOfBody "h1" 10 0 evilPatientBody) (by decide)).1
  · exact (h.2.1 (appointmentOfBody "h1" 7 10 evilApptBody) (by decide)).1
  · exact (h.2.2.1 (staffOfBody "h1" 12 8 0 evilStaffBody) (by decide)).1
  · exact (h.2.2.2 (doctorOfBody "h1" 7 10 0 evilDoctorBody) (by decide)).1

/-- C5: on a route guarded by the authorization middleware, a role outside
the permitted set is rejected with the permission-denied error before the
handler body runs, so the store is unchanged (shown for the
`POST /api/patients` and `POST /api/staff` chains). -/
theorem c5_role_gate_rejects_before_handler
    (role hid : String) (newId now nu ns : Nat) (bv uok sok : Bool)
    (pb : PatientBody) (ub : UserBody) (sb : StaffBody)
    (dbp : List Patient) (users : List User) (staffs : List Staff)
    (hrole : role ∉ ["doctor", "hospitalOwner", "staff"]) :
    postPatients role hid newId now bv pb dbp = (accessDeniedResponse, dbp) ∧
    postStaffRoute role hid nu ns now ub sb uok sok users staffs =
      (accessDeniedResponse, users, staffs) := by
  have h1 : ¬ authorize ["doctor", "hospitalOwner", "staff"] role := by
    simpa [authorize] using hrole
  have hrole2 : role ∉ ["hospitalOwner"] := by
    intro h
    simp only [List.mem_singleton] at h
    exact hrole (by simp [h])
  have h2 : ¬ authorize ["hospitalOwner"] role := by
    simpa [authorize] using hrole2
  constructor
  · simp [postPatients, h1]
  · simp [postStaffRoute, h2]

/-- Witness for C5: the role `"patient"` is in neither permitted set; both
guarded routes reject with 403 and leave the stores unchanged. -/
theorem c5_witness :
    postPatients "patient" "h1" 10 0 true evilPatientBody [samplePatient] =
      (accessDeniedResponse, [samplePatient]) ∧
    postStaffRoute "patient" "h1" 8 12 0 sampleUserBody evilStaffBody true true
      [sampleUser] [sampleStaff] = (accessDeniedResponse, [sampleUser], [sampleStaff]) :=
  c5_role_gate_rejects_before_handler "patient" "h1" 10 0 8 12 true true true
    evilPatientBody sampleUserBody evilStaffBody [samplePatient] [sampleUser] [sampleStaff]
    (by decide)

/-- C6: under an authenticated tenant context, the response for an id that
matches no record at all is the very same value as the response for an id
whose record carries a different tenant's id — callers cannot distinguish
absence from foreign ownership (shown for `GET /api/patients/:id` and
`GET /api/doctors/:id`). -/
theorem c6_absent_and_foreign_tenant_indistinguishable
    (hid : String) (pid did : Nat)
    (dbp : List Patient) (r : Patient)
    (habs : ∀ x ∈ dbp, x.id ≠ pid) (hrid : r.id = pid) (hrt : r.hospitalId ≠ hid)
    (dbd : List Doctor) (d : Doctor)
    (habsd : ∀ x ∈ dbd, x.id ≠ did) (hdid : d.id = did) (hdt : d.hospitalId ≠ hid) :
    getPatientById hid pid dbp = getPatientById hid pid (dbp ++ [r]) ∧
    getPatientById hid pid dbp = notFoundResponse "Patient not found" ∧
    getDoctorById hid did dbd = getDoctorById hid did (dbd ++ [d]) ∧
    getDoctorById hid did dbd = notFoundResponse "Doctor not found" := by
  have hnp : ∀ x ∈ dbp, ¬ patientPred pid hid x := by
    intro x hx hpx
    simp only [patientPred, Bool.and_eq_true, beq_iff_eq] at hpx
    exact habs x hx hpx.1
  have hnp' : ∀ x ∈ dbp ++ [r], ¬ patientPred pid hid x := by
    intro x hx hpx
    rcases List.mem_append.1 hx with h | h
    · exact hnp x h hpx
    · simp only [List.mem_singleton] at h
      subst h
      simp only [patientPred, Bool.and_eq_true, beq_iff_eq] at hpx
      exact hrt hpx.2
  have hnd : ∀ x ∈ dbd, ¬ doctorPred did hid x := by
    intro x hx hpx
    simp only [doctorPred, Bool.and_eq_true, beq_iff_eq] at hpx
    exact habsd x hx hpx.1
  have hnd' : ∀ x ∈ dbd ++ [d], ¬ doctorPred did hid x := by
    intro x hx hpx
    rcases List.mem_append.1 hx with h | h
    · exact hnd x h hpx
    · simp only [List.mem_singleton] at h
      subst h
      simp only [doctorPred, Bool.and_eq_true, beq_iff_eq] at hpx
      exact hdt hpx.2
  refine ⟨?_, ?_, ?_, ?_⟩
  · simp [getPatientById, find?_eq_none_of_all_not _ _ hnp,
      find?_eq_none_of_all_not _ _ hnp']
  · simp [getPatientById, find?_eq_none_of_all_not _ _ hnp]
  · simp [getDoctorById, find?_eq_none_of_all_not _ _ hnd,
      find?_eq_none_of_all_not _ _ hnd']
  · simp [getDoctorById, find?_eq_none_of_all_not _ _ hnd]

/-- Witness for C6: tenant `"h2"` probing id 1, which is absent from an
empty store and present only as tenant `"h1"`'s record in the extended
store. -/
theorem c6_witness :
    getPatientById "h2" 1 [] = getPatientById "h2" 1 ([] ++ [samplePatient]) ∧
    getPatientById "h2" 1 [] = notFoundResponse "Patient not found" ∧
    getDoctorById "h2" 1 [] = getDoctorById "h2" 1 ([] ++ [sampleDoctor]) ∧
    getDoctorById "h2" 1 [] = notFoundResponse "Doctor not found" :=
  c6_absent_and_foreign_tenant_indistinguishable "h2" 1 1 [] samplePatient
    (by decide) (by decide) (by decide) [] sampleDoctor
    (by decide) (by decide) (by decide)

/-- C1: for a record stamped with tenant `T` and an authenticated context
resolved to `T' ≠ T`, every by-id read/update/delete route that exists
(`GET/PUT/DELETE /api/patients/:id`, `PUT/DELETE /api/appointments/:id`,
`PUT/DELETE /api/staff/:id`, `GET/PUT /api/doctors/:id`) returns the
not-found error and leaves the store — hence the record — unchanged.  The
update bodies are assumed schema-valid, since a validator rejection would
produce a 500 before the tenant-scoped query runs. -/
theorem c1_tenant_isolation_by_id
    (T T' : String) (hne : T' ≠ T) (pid : Nat)
    (dbp : List Patient) (dba : List Appointment) (dbs : List Staff) (dbd : List Doctor)
    (pb : PatientBody) (ab : AppointmentBody) (sb : StaffBody) (dbody : DoctorBody)
    (hp : ∀ r ∈ dbp, r.id = pid → r.hospitalId = T)
    (ha : ∀ r ∈ dba, r.id = pid → r.hospitalId = T)
    (hs : ∀ r ∈ dbs, r.id = pid → r.hospitalId = T)
    (hd : ∀ r ∈ dbd, r.id = pid → r.hospitalId = T)
    (hvb : validAppointmentUpdate ab) (hvs : validStaffUpdate sb)
    (hvd : validDoctorUpdate dbody) :
    getPatientById T' pid dbp = notFoundResponse "Patient not found" ∧
    updatePatient T' pid pb dbp = (notFoundResponse "Patient not found", dbp) ∧
    deletePatient T' pid dbp = (notFoundResponse "Patient not found", dbp) ∧
    updateAppointment T' pid ab dba = (notFoundResponse "Appointment not found", dba) ∧
    cancelAppointment T' pid dba = (notFoundResponse "Appointment not found", dba) ∧
    updateStaff T' pid sb dbs = (notFoundResponse "Staff member not found", dbs) ∧
    deactivateStaff T' pid dbs = (notFoundResponse "Staff member not found", dbs) ∧
    getDoctorById T' pid dbd = notFoundResponse "Doctor not found" ∧
    updateDoctor T' pid dbody dbd = (notFoundResponse "Doctor not found", dbd) := by
  have hfp : dbp.find? (patientPred pid T') = none := by
    refine find?_eq_none_of_all_not _ _ ?_
    intro x hx hpx
    simp only [patientPred, Bool.and_eq_true, beq_iff_eq] at hpx
    exact hne (hpx.2 ▸ hp x hx hpx.1 ▸ rfl)
  have hfa : dba.find? (apptPred pid T') = none := by
    refine find?_eq_none_of_all_not _ _ ?_
    intro x hx hpx
    simp only [apptPred, Bool.and_eq_true, beq_iff_eq] at hpx
    exact hne (hpx.2 ▸ ha x hx hpx.1 ▸ rfl)
  have hfs : dbs.find? (staffPred pid T') = none := by
    refine find?_eq_none_of_all_not _ _ ?_
    intro x hx hpx
    simp only [staffPred, Bool.and_eq_true, beq_iff_eq] at hpx
    exact hne (hpx.2 ▸ hs x hx hpx.1 ▸ rfl)
  have hfd : dbd.find? (doctorPred pid T') = none := by
    refine find?_eq_none_of_all_not _ _ ?_
    intro x hx hpx
    simp only [doctorPred, Bool.and_eq_true, beq_iff_eq] at hpx
    exact hne (hpx.2 ▸ hd x hx hpx.1 ▸ rfl)
  refine ⟨?_, ?_, ?_, ?_, ?_, ?_, ?_, ?_, ?_⟩
  · simp [getPatientById, hfp]
  · simp [updatePatient, hfp]
  · simp [deletePatient, hfp]
  · simp [updateAppointment, hvb, hfa]
  · simp [cancelAppointment, hfa]
  · simp [updateStaff, hvs, hfs]
  · simp [deactivateStaff, hfs]
  · simp [getDoctorById, hfd]
  · simp [updateDoctor, hvd, hfd]

/-- Witness for C1: tenant `"h2"` supplies the primary id 1 of records
stamped `"h1"`; every by-id operation answers not-found and the stores are
unchanged. -/
theorem c1_witness :
    getPatientById "h2" 1 [samplePatient] = notFoundResponse "Patient not found" ∧
    updatePatient "h2" 1 emptyPatientBody [samplePatient] =
      (notFoundResponse "Patient not found", [samplePatient]) ∧
    deletePatient "h2" 1 [samplePatient] =
      (notFoundResponse "Patient not found", [samplePatient]) ∧
    updateAppointment "h2" 1 (statusOnlyBody "Confirmed") [sampleAppointment] =
      (notFoundResponse "Appointment not found", [sampleAppointment]) ∧
    cancelAppointment "h2" 1 [sampleAppointment] =
      (notFoundResponse "Appointment not found", [sampleAppointment]) ∧
    updateStaff "h2" 1 emptyStaffBody [sampleStaff] =
      (notFoundResponse "Staff member not found", [sampleStaff]) ∧
    deactivateStaff "h2" 1 [sampleStaff] =
      (notFoundResponse "Staff member not found", [sampleStaff]) ∧
    getDoctorById "h2" 1 [sampleDoctor] = notFoundResponse "Doctor not found" ∧
    updateDoctor "h2" 1 emptyDoctorBody [sampleDoctor] =
      (notFoundResponse "Doctor not found", [sampleDoctor]) :=
  c1_tenant_isolation_by_id "h1" "h2" (by decide) 1
    [samplePatient] [sampleAppointment] [sampleStaff] [sampleDoctor]
    emptyPatientBody (statusOnlyBody "Confirmed") emptyStaffBody emptyDoctorBody
    (by decide) (by decide) (by decide) (by decide)
    (by decide) (by decide) (by decide)

/-- C9: `DELETE /api/appointments/:id` and `DELETE /api/staff/:id` never
remove the record — they set only the status field (`'Cancelled'` /
`'inactive'`), every other field is unchanged, and the record stays in its
collection; `DELETE /api/patients/:id` removes the patient record. -/
theorem c9_soft_deletes_vs_hard_delete
    (hid : String) (aid sid pid : Nat)
    (dba : List Appointment) (a : Appointment)
    (hmem : a ∈ dba) (haid : a.id = aid) (hah : a.hospitalId = hid)
    (hua : ∀ x ∈ dba, apptPred aid hid x → x = a)
    (dbs : List Staff) (s : Staff)
    (hsm : s ∈ dbs) (hsid : s.id = sid) (hsh : s.hospitalId = hid)
    (hus : ∀ x ∈ dbs, staffPred sid hid x → x = s)
    (dbp : List Patient) (p : Patient)
    (hpm : p ∈ dbp) (hpid : p.id = pid) (hph : p.hospitalId = hid)
    (hcount : (dbp.filter (patientPred pid hid)).length ≤ 1) :
    -- appointment: status-only update, record retained
    cancelAppointment hid aid dba =
      (okMsgData "Appointment cancelled successfully" { a with status := "Cancelled" },
       updateFirst (apptPred aid hid) (fun x => { x with status := "Cancelled" }) dba) ∧
    { a with status := "Cancelled" } ∈ (cancelAppointment hid aid dba).2 ∧
    ({ a with status := "Cancelled" }.id = a.id ∧
     { a with status := "Cancelled" }.hospitalId = a.hospitalId ∧
     { a with status := "Cancelled" }.patientId = a.patientId ∧
     { a with status := "Cancelled" }.doctorId = a.doctorId ∧
     { a with status := "Cancelled" }.appointmentDate = a.appointmentDate ∧
     { a with status := "Cancelled" }.appointmentTime = a.appointmentTime ∧
     { a with status := "Cancelled" }.duration = a.duration ∧
     { a with status := "Cancelled" }.department = a.department ∧
     { a with status := "Cancelled" }.reason = a.reason ∧
     { a with status := "Cancelled" }.type = a.type ∧
     { a with status := "Cancelled" }.location = a.location ∧
     { a with status := "Cancelled" }.notes = a.notes ∧
     { a with status := "Cancelled" }.createdBy = a.createdBy ∧
     { a with status := "Cancelled" }.status = "Cancelled") ∧
    -- staff: status-only update, record retained
    deactivateStaff hid sid dbs =
      (okMsgData "Staff member deactivated successfully" { s with status := "inactive" },
       updateFirst (staffPred sid hid) (fun x => { x with status := "inactive" }) dbs) ∧
    { s with status := "inactive" } ∈ (deactivateStaff hid sid dbs).2 ∧
    ({ s with status := "inactive" }.id = s.id ∧
     { s with status := "inactive" }.userId = s.userId ∧
     { s with status := "inactive" }.employeeId = s.employeeId ∧
     { s with status := "inactive" }.firstName = s.firstName ∧
     { s with status := "inactive" }.lastName = s.lastName ∧
     { s with status := "inactive" }.department = s.department ∧
     { s with status := "inactive" }.role = s.role ∧
     { s with status := "inactive" }.phone = s.phone ∧
     { s with status := "inactive" }.email = s.email ∧
     { s with status := "inactive" }.address = s.address ∧
     { s with status := "inactive" }.gender = s.gender ∧
     { s with status := "inactive" }.joiningDate = s.joiningDate ∧
     { s with status := "inactive" }.salary = s.salary ∧
     { s with status := "inactive" }.workSchedule = s.workSchedule ∧
     { s with status := "inactive" }.hospitalId = s.hospitalId ∧
     { s with status := "inactive" }.notes = s.notes ∧
     { s with status := "inactive" }.status = "inactive") ∧
    -- patient: hard delete, record gone
    deletePatient hid pid dbp =
      (okMsg "Patient deleted successfully", removeFirst (patientPred pid hid) dbp) ∧
    (∀ x ∈ (deletePatient hid pid dbp).2, x.id ≠ pid ∨ x.hospitalId ≠ hid) := by
  have hpa : apptPred aid hid a := by simp [apptPred, haid, hah]
  have hfa := find?_eq_of_unique _ dba a hmem hpa hua
  have hps : staffPred sid hid s := by simp [staffPred, hsid, hsh]
  have hfs := find?_eq_of_unique _ dbs s hsm hps hus
  have hpp : patientPred pid hid p := by simp [patientPred, hpid, hph]
  have hfp : dbp.find? (patientPred pid hid) = some p := by
    refine find?_eq_of_unique _ dbp p hpm hpp ?_
    intro x hx hpx
    by_contra hne
    have hxf : x ∈ dbp.filter (patientPred pid hid) := List.mem_filter.2 ⟨hx, hpx⟩
    have hpf : p ∈ dbp.filter (patientPred pid hid) := List.mem_filter.2 ⟨hpm, hpp⟩
    have huniq : ∀ u ∈ dbp.filter (patientPred pid hid),
        ∀ v ∈ dbp.filter (patientPred pid hid), u = v := by
      intro u hu v hv
      rcases hlist : dbp.filter (patientPred pid hid) with _ | ⟨z, _ | ⟨w, t⟩⟩
      · rw [hlist] at hu; cases hu
      · rw [hlist] at hu hv
        simp only [List.mem_singleton] at hu hv
        rw [hu, hv]
      · rw [hlist] at hcount
        simp at hcount
    exact hne (huniq x hxf p hpf)
  refine ⟨?_, ?_, by simp, ?_, ?_, by simp, ?_, ?_⟩
  · simp [cancelAppointment, hfa]
  · simp only [cancelAppointment, hfa]
    exact updateFirst_mem_of_unique _ _ dba a hmem hpa hua
  · simp [deactivateStaff, hfs]
  · simp only [deactivateStaff, hfs]
    exact updateFirst_mem_of_unique _ _ dbs s hsm hps hus
  · simp [deletePatient, hfp]
  · intro x hx
    simp only [deletePatient, hfp] at hx
    have := removeFirst_no_match _ dbp hcount x hx
    by_contra hcon
    push_neg at hcon
    exact this (by simp [patientPred, hcon.1, hcon.2])

/-- Witness for C9: cancelling appointment 1 and deactivating staff 1 keep
the records in their collections with only the status changed, while
deleting patient 1 removes it. -/
theorem c9_witness :
    { sampleAppointment with status := "Cancelled" } ∈
      (cancelAppointment "h1" 1 [sampleAppointment]).2 ∧
    { sampleStaff with status := "inactive" } ∈
      (deactivateStaff "h1" 1 [sampleStaff]).2 ∧
    (∀ x ∈ (deletePatient "h1" 1 [samplePatient]).2,
      x.id ≠ 1 ∨ x.hospitalId ≠ "h1") := by
  have h := c9_soft_deletes_vs_hard_delete "h1" 1 1 1
    [sampleAppointment] sampleAppointment (by decide) (by decide) (by decide) (by decide)
    [sampleStaff] sampleStaff (by decide) (by decide) (by decide) (by decide)
    [samplePatient] samplePatient (by decide) (by decide) (by decide) (by decide)
  exact ⟨h.2.1, h.2.2.2.2.1, h.2.2.2.2.2.2.2⟩

/-- Counterexample to C3 as stated: appointment 1 of tenant `"h1"` is
`Cancelled`, yet `PUT /api/appointments/:id` with `{status: 'Confirmed'}`
succeeds (200) and the stored status becomes `Confirmed` — the
`Cancelled → Confirmed` attempt is not rejected. -/
theorem c3_counterexample :
    sampleAppointment.status = "Cancelled" ∧
    (updateAppointment "h1" 1 (statusOnlyBody "Confirmed") [sampleAppointment]).1.success = true ∧
    (updateAppointment "h1" 1 (statusOnlyBody "Confirmed") [sampleAppointment]).1.status = 200 ∧
    (updateAppointment "h1" 1 (statusOnlyBody "Confirmed") [sampleAppointment]).2.map
      Appointment.status = ["Confirmed"] := by
  refine ⟨rfl, ?_, ?_, ?_⟩ <;> decide

/-- C3 amended: the schema constrains `Appointment.status` to the enum
`{Scheduled, Confirmed, Completed, Cancelled, No-Show}` (an out-of-enum
update is rejected by `runValidators` and the store is unchanged), but no
transition ordering is enforced: an update to any enum value succeeds
whatever the current status — in particular `Cancelled → Confirmed`. -/
theorem c3_amended_status_enum_only_no_transitions
    (hid : String) (aid : Nat) (db : List Appointment) (a : Appointment) (s : String)
    (hmem : a ∈ db) (haid : a.id = aid) (hah : a.hospitalId = hid)
    (hu : ∀ x ∈ db, apptPred aid hid x → x = a)
    (hs : s ∈ appointmentStatusEnum) :
    updateAppointment hid aid (statusOnlyBody s) db =
      (okMsgData "Appointment updated successfully" { a with status := s },
       updateFirst (apptPred aid hid) (applyAppointmentBody (statusOnlyBody s)) db) ∧
    { a with status := s } ∈ (updateAppointment hid aid (statusOnlyBody s) db).2 ∧
    (∀ sBad, sBad ∉ appointmentStatusEnum →
      updateAppointment hid aid (statusOnlyBody sBad) db = (serverErrorResponse, db)) := by
  have hv : validAppointmentUpdate (statusOnlyBody s) = true := by
    simp only [validAppointmentUpdate, statusOnlyBody, Bool.and_eq_true]
    exact ⟨by simpa using hs, trivial⟩
  have hpa : apptPred aid hid a := by simp [apptPred, haid, hah]
  have hf := find?_eq_of_unique _ db a hmem hpa hu
  have happ : applyAppointmentBody (statusOnlyBody s) a = { a with status := s } := rfl
  refine ⟨?_, ?_, ?_⟩
  · simp [updateAppointment, hv, hf, happ]
  · simp only [updateAppointment, hv, not_true, if_false, hf]
    rw [← happ]
    exact updateFirst_mem_of_unique _ _ db a hmem hpa hu
  · intro sBad hbad
    have hvb : ¬ (validAppointmentUpdate (statusOnlyBody sBad) = true) := by
      simp only [validAppointmentUpdate, statusOnlyBody, Bool.and_eq_true, not_and]
      intro hc
      exact absurd (by simpa using hc) hbad
    simp [updateAppointment, hvb]

/-- Witness for C3 (amended) at a concrete input: the `Cancelled`
appointment is updated to `Confirmed` and stays in the store with the new
status. -/
theorem c3_witness :
    updateAppointment "h1" 1 (statusOnlyBody "Confirmed") [sampleAppointment] =
      (okMsgData "Appointment updated successfully"
        { sampleAppointment with status := "Confirmed" },
       [{ sampleAppointment with status := "Confirmed" }]) := by
  have h := c3_amended_status_enum_only_no_transitions "h1" 1 [sampleAppointment]
    sampleAppointment "Confirmed" (by decide) (by decide) (by decide) (by decide) (by decide)
  exact h.1.trans (by decide)

/-- C10: `POST /api/doctors` stamps the created profile's `userId` with the
authenticated requester's id (a body-supplied `userId` is overridden), and
side-effects the requester's User record to `role: 'doctor'` — whatever the
previous role, including `hospitalOwner`. -/
theorem c10_doctor_create_overrides_userid_and_resets_role
    (hid : String) (uid newId now : Nat) (b : DoctorBody)
    (users : List User) (docs : List Doctor) (u : User)
    (hb : validNewDoctor b) (hu : u ∈ users) (huid : u.id = uid)
    (hq : ∀ x ∈ users, (x.id == uid) = true → x = u) :
    (createDoctor hid uid newId now b users docs).1 =
      createdResponse "Doctor profile created successfully" (doctorOfBody hid uid newId now b) ∧
    (doctorOfBody hid uid newId now b).userId = uid ∧
    (createDoctor hid uid newId now b users docs).2.1 =
      updateFirst (fun x => x.id == uid) (fun x => { x with role := "doctor" }) users ∧
    { u with role := "doctor" } ∈ (createDoctor hid uid newId now b users docs).2.1 ∧
    (createDoctor hid uid newId now b users docs).2.2 =
      docs ++ [doctorOfBody hid uid newId now b] := by
  refine ⟨by simp [createDoctor, hb], rfl, by simp [createDoctor, hb], ?_,
    by simp [createDoctor, hb]⟩
  simp only [createDoctor, hb, not_true, if_false]
  exact updateFirst_mem_of_unique _ _ users u hu (by simp [huid]) hq

/-- Witness for C10: the requester (User 7, a `hospitalOwner`) creates a
doctor profile whose body claims `userId: 999`; the stored profile carries
`userId = 7` and User 7's role becomes `doctor`. -/
theorem c10_witness :
    evilDoctorBody.userId = some 999 ∧
    (doctorOfBody "h1" 7 21 0 evilDoctorBody).userId = 7 ∧
    sampleUser.role = "hospitalOwner" ∧
    { sampleUser with role := "doctor" } ∈
      (createDoctor "h1" 7 21 0 evilDoctorBody [sampleUser] []).2.1 := by
  have h := c10_doctor_create_overrides_userid_and_resets_role "h1" 7 21 0
    evilDoctorBody [sampleUser] [] sampleUser (by decide) (by decide) (by decide) (by decide)
  exact ⟨rfl, h.2.1, rfl, h.2.2.2.1⟩

/-- Ceiling-division facts behind the last-page arithmetic:
with `c = ⌈N/L⌉ = (N + L - 1)/L` and `N, L > 0`, the last page's skip
`(c-1)·L` stays below `N` and the remainder `N - (c-1)·L` fits in one
page. -/
theorem lastPage_arith (N L : Nat) (hL : 0 < L) (hN : 0 < N) :
    1 ≤ (N + L - 1) / L ∧ ((N + L - 1) / L - 1) * L ≤ N ∧
      N - ((N + L - 1) / L - 1) * L ≤ L ∧ 0 < N - ((N + L - 1) / L - 1) * L := by
  have h1 : 1 ≤ (N + L - 1) / L := (Nat.one_le_div_iff hL).2 (by omega)
  have hdm := Nat.div_add_mod (N + L - 1) L
  have hm : (N + L - 1) % L < L := Nat.mod_lt _ hL
  have hcl : ((N + L - 1) / L - 1) * L = L * ((N + L - 1) / L) - L := by
    rw [Nat.sub_mul, Nat.one_mul, Nat.mul_comm]
  refine ⟨h1, ?_, ?_, ?_⟩ <;>
  · rw [hcl]
    generalize hLc : L * ((N + L - 1) / L) = M at hdm
    generalize hr : (N + L - 1) % L = r at hdm hm
    omega

/-- C4 amended: for N matching records and page size L > 0, requesting page
`⌈N/L⌉` returns the remaining `N − (⌈N/L⌉−1)·L` records and the pagination
envelope reports `page = pages` (the envelope has no `hasNext` field; the
derived `hasNext = page < pages` is false); an absent or `0` page is
normalized to page 1, but a negative page is NOT normalized — it survives
`parseInt(...) || 1`, makes the skip negative, and the request fails with
the 500 server-error response (shown for `GET /api/patients` and
`GET /api/staff`). -/
theorem c4_amended_pagination
    (hid : String) (L : Nat) (hL : 0 < L)
    (dbp : List Patient) (hallp : ∀ r ∈ dbp, r.hospitalId = hid) (hNp : dbp ≠ [])
    (dbs : List Staff) (halls : ∀ r ∈ dbs, r.hospitalId = hid) (hNs : dbs ≠ []) :
    ((getPatients hid (plainPatientsQuery (((dbp.length + L - 1) / L : Nat) : Int) (L : Int))
        dbp).data.map List.length) =
      some (dbp.length - ((dbp.length + L - 1) / L - 1) * L) ∧
    (getPatients hid (plainPatientsQuery (((dbp.length + L - 1) / L : Nat) : Int) (L : Int))
        dbp).pagination =
      some { page := (((dbp.length + L - 1) / L : Nat) : Int), limit := (L : Int),
             total := dbp.length,
             pages := (((dbp.length + L - 1) / L : Nat) : Int) } ∧
    ((getStaffList hid (plainStaffQuery (((dbs.length + L - 1) / L : Nat) : Int) (L : Int))
        dbs).data.map List.length) =
      some (dbs.length - ((dbs.length + L - 1) / L - 1) * L) ∧
    (getStaffList hid (plainStaffQuery (((dbs.length + L - 1) / L : Nat) : Int) (L : Int))
        dbs).pagination =
      some { page := (((dbs.length + L - 1) / L : Nat) : Int), limit := (L : Int),
             total := dbs.length,
             pages := (((dbs.length + L - 1) / L : Nat) : Int) } ∧
    jsParseOr (some 0) 1 = 1 ∧
    jsParseOr none 1 = 1 ∧
    (∀ k : Int, k < 0 → jsParseOr (some k) 1 = k) ∧
    getPatients hid (plainPatientsQuery (-1) (L : Int)) dbp = serverErrorResponse := by
  have hL0 : ((L : Nat) : Int) ≠ 0 := by exact_mod_cast (by omega : L ≠ 0)
  have hLpos : (0 : Int) < (L : Int) := by exact_mod_cast hL
  have hNpos : 0 < dbp.length := List.length_pos.2 hNp
  have hNspos : 0 < dbs.length := List.length_pos.2 hNs
  obtain ⟨hp1, hp2, hp3, hp4⟩ := lastPage_arith dbp.length L hL hNpos
  obtain ⟨hs1, hs2, hs3, hs4⟩ := lastPage_arith dbs.length L hL hNspos
  have hpc0 : (((dbp.length + L - 1) / L : Nat) : Int) ≠ 0 := by
    exact_mod_cast (by omega : (dbp.length + L - 1) / L ≠ 0)
  have hsc0 : (((dbs.length + L - 1) / L : Nat) : Int) ≠ 0 := by
    exact_mod_cast (by omega : (dbs.length + L - 1) / L ≠ 0)
  have hpcast : ((((dbp.length + L - 1) / L : Nat) : Int) - 1) * (L : Int) =
      ((((dbp.length + L - 1) / L - 1) * L : Nat) : Int) := by
    rw [Nat.cast_mul, Nat.cast_sub hp1, Nat.cast_one]
  have hscast : ((((dbs.length + L - 1) / L : Nat) : Int) - 1) * (L : Int) =
      ((((dbs.length + L - 1) / L - 1) * L : Nat) : Int) := by
    rw [Nat.cast_mul, Nat.cast_sub hs1, Nat.cast_one]
  have hpnn : ¬ (((((dbp.length + L - 1) / L - 1) * L : Nat) : Int) < 0) :=
    not_lt.2 (Int.natCast_nonneg _)
  have hsnn : ¬ (((((dbs.length + L - 1) / L - 1) * L : Nat) : Int) < 0) :=
    not_lt.2 (Int.natCast_nonneg _)
  have hprows : ∀ pg lm, dbp.filter (patientQueryMatch hid (plainPatientsQuery pg lm)) = dbp := by
    intro pg lm
    refine List.filter_eq_self.2 fun a ha => ?_
    simp [patientQueryMatch, plainPatientsQuery, hallp a ha]
  have hsrows : ∀ pg lm, dbs.filter (staffQueryMatch hid (plainStaffQuery pg lm)) = dbs := by
    intro pg lm
    refine List.filter_eq_self.2 fun a ha => ?_
    simp [staffQueryMatch, plainStaffQuery, halls a ha]
  have hprows2 : ∀ pg lm : Int,
      List.filter (patientQueryMatch hid
        { page := some pg, limit := some lm, search := none, status := none }) dbp = dbp := by
    intro pg lm
    simpa only [plainPatientsQuery] using hprows pg lm
  have hsrows2 : ∀ pg lm : Int,
      List.filter (staffQueryMatch hid
        { page := some pg, limit := some lm, department := none, role := none,
          search := none }) dbs = dbs := by
    intro pg lm
    simpa only [plainStaffQuery] using hsrows pg lm
  have hppages : jsCeilDiv dbp.length (L : Int) = (((dbp.length + L - 1) / L : Nat) : Int) := by
    simp only [jsCeilDiv]
    rw [if_pos hLpos, Int.toNat_natCast]
  have hspages : jsCeilDiv dbs.length (L : Int) = (((dbs.length + L - 1) / L : Nat) : Int) := by
    simp only [jsCeilDiv]
    rw [if_pos hLpos, Int.toNat_natCast]
  refine ⟨?_, ?_, ?_, ?_, rfl, rfl, ?_, ?_⟩
  · simp only [getPatients, plainPatientsQuery, jsParseOr, hpc0, hL0, if_false,
      hpcast, hpnn, Int.toNat_natCast, Int.natAbs_ofNat]
    rw [hprows2]
    simp only [Option.map_some, Option.map_some', List.length_take, List.length_drop,
      length_sortBy, Option.some.injEq]
    omega
  · simp only [getPatients, plainPatientsQuery, jsParseOr, hpc0, hL0, if_false,
      hpcast, hpnn, hprows, hprows2, hppages]
  · simp only [getStaffList, plainStaffQuery, jsParseOr, hsc0, hL0, if_false,
      hscast, hsnn, Int.toNat_natCast, Int.natAbs_ofNat]
    rw [hsrows2]
    simp only [Option.map_some, Option.map_some', List.length_take, List.length_drop,
      length_sortBy, Option.some.injEq]
    omega
  · simp only [getStaffList, plainStaffQuery, jsParseOr, hsc0, hL0, if_false,
      hscast, hsnn, hsrows, hsrows2, hspages]
  · intro k hk
    simp only [jsParseOr]
    rw [if_neg (by omega : ¬ k = 0)]
  · have hneg : ((-1 : Int) - 1) * (L : Int) < 0 := by nlinarith
    have hLne : ¬ ((L : Nat) : Int) = 0 := hL0
    simp only [getPatients, plainPatientsQuery, jsParseOr]
    rw [if_neg (by norm_num : ¬ (-1 : Int) = 0), if_neg hLne, if_pos hneg]

/-- Counterexample to C4 as stated: requesting page `-1` is not normalized
to page 1 — it produces a negative skip and the request ends in the 500
server-error branch, while the claimed normalized request (page 1) would
have succeeded. -/
theorem c4_counterexample :
    getPatients "h1" (plainPatientsQuery (-1) 10) [samplePatient] = serverErrorResponse ∧
    (getPatients "h1" (plainPatientsQuery 1 10) [samplePatient]).success = true ∧
    (getPatients "h1" (plainPatientsQuery 1 10) [samplePatient]).pagination =
      some { page := 1, limit := 10, total := 1, pages := 1 } := by
  refine ⟨?_, ?_, ?_⟩ <;> decide

/-- Witness for C4 (amended) at a concrete input: one matching record,
page size 10, last page ⌈1/10⌉ = 1 returns the single record with
`pages = page = 1`, and page `-1` yields the server error. -/
theorem c4_witness :
    ((getPatients "h1" (plainPatientsQuery 1 10) [samplePatient]).data.map
      List.length) = some 1 ∧
    (getStaffList "h1" (plainStaffQuery 1 10) [sampleStaff]).pagination =
      some { page := 1, limit := 10, total := 1, pages := 1 } ∧
    getPatients "h1" (plainPatientsQuery (-1) 10) [samplePatient] = serverErrorResponse := by
  have h := c4_amended_pagination "h1" 10 (by decide) [samplePatient] (by decide) (by decide)
    [sampleStaff] (by decide) (by decide)
  exact ⟨h.1, h.2.2.2.1, h.2.2.2.2.2.2.2⟩
